import Mathlib

/-!
Verification of the (s, Q) inventory simulator in `app.py`.

The core function `simular_inventario(dias, I0, s, Q, L, demanda_media)`
iterates over days `t = 0 .. dias-1`, drawing a Poisson demand each day,
applying a pending-order arrival when `t == llegada_pedido`, computing
sales and shortfall, and re-scheduling an order when the post-sales
inventory is at or below the reorder point `s` and `llegada_pedido < t`.
We embed the loop body as `simStep`, the loop as `simLoop` (which also
exposes the final internal state), and the function as `simular_inventario`.
The Poisson random source is modelled as an injected stream of draws
`demanda : Nat -> Int`, one value per day, matching the spec's injected
random source; `np.random.poisson` always returns a nonnegative integer,
so valid demand streams satisfy `0 <= demanda k`.
-/

/-- One row of the result DataFrame: `[t, inventario, demanda, ventas, faltantes]`
with columns named `Dia, Inventario, Demanda, Ventas, Faltantes`. -/
structure DayRecord where
  day : ℤ
  inventoryEnd : ℤ
  demand : ℤ
  sales : ℤ
  shortfall : ℤ
  deriving DecidableEq, Repr

/-- The body of the day loop of `simular_inventario` (app.py lines 44-63):
arrival of a pending order when `t == llegada_pedido`, then
`ventas = min(inventario, demanda)`, `faltantes = max(0, demanda - inventario)`,
`inventario -= ventas`, then the reorder trigger
`if inventario <= s and llegada_pedido < t: llegada_pedido = t + L`.
Returns the appended record together with the updated
`(inventario, llegada_pedido)` state. -/
def simStep (s Q L : ℤ) (t : ℕ) (demanda : ℤ) (inventario llegada_pedido : ℤ) :
    DayRecord × ℤ × ℤ :=
  let inv1 : ℤ := if (t : ℤ) = llegada_pedido then inventario + Q else inventario
  let ventas : ℤ := min inv1 demanda
  let faltantes : ℤ := max 0 (demanda - inv1)
  let inv2 : ℤ := inv1 - ventas
  let llegadaNext : ℤ :=
    if inv2 ≤ s ∧ llegada_pedido < (t : ℤ) then (t : ℤ) + L else llegada_pedido
  (⟨(t : ℤ), inv2, demanda, ventas, faltantes⟩, inv2, llegadaNext)

/-- The day loop `for t in range(dias)` of `simular_inventario`, with `n`
days remaining and `t` the current day index. Returns the accumulated
records in day order together with the final `(inventario, llegada_pedido)`
state (the state is internal to the Python function; we expose it to be
able to reason about order scheduling). -/
def simLoop (s Q L : ℤ) (demanda : ℕ → ℤ) :
    ℕ → ℕ → ℤ → ℤ → List DayRecord × ℤ × ℤ
  | 0, _, inventario, llegada_pedido => ([], inventario, llegada_pedido)
  | n + 1, t, inventario, llegada_pedido =>
    let step := simStep s Q L t (demanda t) inventario llegada_pedido
    let rest := simLoop s Q L demanda n (t + 1) step.2.1 step.2.2
    (step.1 :: rest.1, rest.2)

/-- `simular_inventario(dias, I0, s, Q, L, demanda_media)` (app.py lines 37-66):
starts from `inventario = I0`, `llegada_pedido = -1`, runs the day loop and
returns the list of per-day records (the DataFrame rows in order). -/
def simular_inventario (dias : ℕ) (I0 s Q L : ℤ) (demanda : ℕ → ℤ) :
    List DayRecord :=
  (simLoop s Q L demanda dias 0 I0 (-1)).1

/-- Total shortfall: `falt_total = df["Faltantes"].sum()` (app.py line 103). -/
def falt_total (df : List DayRecord) : ℤ :=
  (df.map (fun r => r.shortfall)).sum

/-- Days with shortfall: `falt_dias = sum(df["Faltantes"] > 0)` (app.py line 104):
the comparison yields one boolean per row and `sum` counts the `True`s. -/
def falt_dias (df : List DayRecord) : ℕ :=
  (df.map (fun r => decide (0 < r.shortfall))).count true

/-- Order-trigger proxy: `pedidos = (df["Inventario"] <= s).sum()` (app.py
line 105): counts rows whose ending inventory is at or below `s`. -/
def pedidos (df : List DayRecord) (s : ℤ) : ℕ :=
  (df.map (fun r => decide (r.inventoryEnd ≤ s))).count true

/-- Scenario sweep (app.py lines 118-122): for each
`param in [demanda_media-3, demanda_media, demanda_media+3]` run
`simular_inventario` with that mean and tag the run `"Demanda={param}"`.
The random source is modelled as a family `src` giving, for each candidate
mean, the stream of Poisson draws the generator would produce at that mean. -/
def escenarios_data (dias : ℕ) (I0 s Q L : ℤ) (demanda_media : ℤ)
    (src : ℤ → ℕ → ℤ) : List (String × List DayRecord) :=
  [demanda_media - 3, demanda_media, demanda_media + 3].map
    (fun param =>
      ("Demanda=" ++ toString param, simular_inventario dias I0 s Q L (src param)))

/-- The day loop always produces one record per remaining day. -/
theorem simLoop_length (s Q L : ℤ) (demanda : ℕ → ℤ) (n : ℕ) :
    ∀ (t : ℕ) (inv ll : ℤ), ((simLoop s Q L demanda n t inv ll).1).length = n := by
  induction n with
  | zero => intro t inv ll; rfl
  | succ n ih => intro t inv ll; simp [simLoop, ih]

/-- The `day` fields of the records produced from day `t` onward are
`t, t+1, ...` in order. -/
theorem simLoop_map_day (s Q L : ℤ) (demanda : ℕ → ℤ) (n : ℕ) :
    ∀ (t : ℕ) (inv ll : ℤ),
      ((simLoop s Q L demanda n t inv ll).1).map (fun r => r.day) =
        (List.range' t n).map (fun i : ℕ => (i : ℤ)) := by
  induction n with
  | zero => intro t inv ll; rfl
  | succ n ih => intro t inv ll; simp [simLoop, simStep, List.range', ih]

/-- C1: for every valid parameter set (horizon > 0, initialInventory ≥ 0,
orderQuantity > 0, leadTime ≥ 1) and every demand source, the run returns
exactly `dias` records whose `day` fields are `0, 1, ..., dias-1`, hence
strictly increasing. -/
theorem C1_horizon_days (dias : ℕ) (I0 s Q L : ℤ) (demanda : ℕ → ℤ)
    (hdias : 0 < dias) (hI0 : 0 ≤ I0) (hQ : 0 < Q) (hL : 1 ≤ L) :
    (simular_inventario dias I0 s Q L demanda).length = dias ∧
    (simular_inventario dias I0 s Q L demanda).map (fun r => r.day) =
      (List.range dias).map (fun i : ℕ => (i : ℤ)) ∧
    (simular_inventario dias I0 s Q L demanda).Pairwise (fun a b => a.day < b.day) := by
  have hmap : (simular_inventario dias I0 s Q L demanda).map (fun r => r.day) =
      (List.range dias).map (fun i : ℕ => (i : ℤ)) := by
    rw [simular_inventario, simLoop_map_day, List.range_eq_range']
  refine ⟨?_, hmap, ?_⟩
  · simpa [simular_inventario] using simLoop_length s Q L demanda dias 0 I0 (-1)
  · have h2 : ((simular_inventario dias I0 s Q L demanda).map (fun r => r.day)).Pairwise
        (fun a b : ℤ => a < b) := by
      rw [hmap]
      exact List.Pairwise.map (fun i : ℕ => (i : ℤ))
        (fun a b h => by show (a : ℤ) < (b : ℤ); exact_mod_cast h)
        (List.pairwise_lt_range dias)
    exact List.pairwise_map.mp h2

/-- Post-sales inventory stays nonnegative across one day when it was
nonnegative before and the order quantity and demand are nonnegative. -/
theorem simStep_inv_nonneg (s Q L : ℤ) (t : ℕ) (d inv ll : ℤ)
    (hinv : 0 ≤ inv) (hQ : 0 ≤ Q) (hd : 0 ≤ d) :
    0 ≤ (simStep s Q L t d inv ll).2.1 := by
  by_cases harr : (t : ℤ) = ll <;> simp [simStep, harr] <;> omega

/-- Every record produced by the day loop from a nonnegative inventory
satisfies the per-record invariants: nonnegative ending inventory, sales and
shortfall, `sales = min(inventoryBeforeSales, demand)` and
`shortfall = demand - sales` exactly when demand exceeds the pre-sales
inventory (which is recovered as `inventoryEnd + sales`). -/
theorem simLoop_mem_inv (s Q L : ℤ) (demanda : ℕ → ℤ) (hQ : 0 ≤ Q)
    (hd : ∀ k, 0 ≤ demanda k) (n : ℕ) :
    ∀ (t : ℕ) (inv ll : ℤ), 0 ≤ inv →
      ∀ r ∈ (simLoop s Q L demanda n t inv ll).1,
        0 ≤ r.inventoryEnd ∧ 0 ≤ r.sales ∧ 0 ≤ r.shortfall ∧
        r.sales = min (r.inventoryEnd + r.sales) r.demand ∧
        (r.inventoryEnd + r.sales < r.demand → r.shortfall = r.demand - r.sales) ∧
        (r.demand ≤ r.inventoryEnd + r.sales → r.shortfall = 0) := by
  induction n with
  | zero => intro t inv ll _ r hr; simp [simLoop] at hr
  | succ n ih =>
    intro t inv ll hinv r hr
    rw [simLoop] at hr
    simp only [List.mem_cons] at hr
    rcases hr with rfl | hr
    · have hdt := hd t
      by_cases harr : (t : ℤ) = ll <;> simp [simStep, harr] <;> omega
    · exact ih (t + 1) _ _ (simStep_inv_nonneg s Q L t (demanda t) inv ll hinv hQ (hd t)) r hr

/-- Each day's sales and shortfall add up exactly to that day's demand. -/
theorem simLoop_conservation (s Q L : ℤ) (demanda : ℕ → ℤ) (n : ℕ) :
    ∀ (t : ℕ) (inv ll : ℤ), ∀ r ∈ (simLoop s Q L demanda n t inv ll).1,
      r.sales + r.shortfall = r.demand := by
  induction n with
  | zero => intro t inv ll r hr; simp [simLoop] at hr
  | succ n ih =>
    intro t inv ll r hr
    rw [simLoop] at hr
    simp only [List.mem_cons] at hr
    rcases hr with rfl | hr
    · by_cases harr : (t : ℤ) = ll <;> simp [simStep, harr] <;> omega
    · exact ih (t + 1) _ _ r hr

/-- C2: in every run started from a valid state (nonnegative initial
inventory, nonnegative order quantity, nonnegative demand draws), every
record has `inventoryEnd ≥ 0`, `sales ≥ 0`, `shortfall ≥ 0`,
`sales = min(inventoryBeforeSales, demand)` and `shortfall = demand - sales`
when `demand > inventoryBeforeSales`, else `0`; here `inventoryBeforeSales`,
the inventory after the day's arrival, equals `inventoryEnd + sales`. -/
theorem C2_record_invariants (dias : ℕ) (I0 s Q L : ℤ) (demanda : ℕ → ℤ)
    (hI0 : 0 ≤ I0) (hQ : 0 ≤ Q) (hd : ∀ k, 0 ≤ demanda k) :
    ∀ r ∈ simular_inventario dias I0 s Q L demanda,
      0 ≤ r.inventoryEnd ∧ 0 ≤ r.sales ∧ 0 ≤ r.shortfall ∧
      r.sales = min (r.inventoryEnd + r.sales) r.demand ∧
      (r.inventoryEnd + r.sales < r.demand → r.shortfall = r.demand - r.sales) ∧
      (r.demand ≤ r.inventoryEnd + r.sales → r.shortfall = 0) :=
  fun r hr => simLoop_mem_inv s Q L demanda hQ hd dias 0 I0 (-1) hI0 r hr

/-- C2 witness: the invariants hold for the concrete record produced on
day 0 from `I0 = 3` with demand 5 (sales 3, shortfall 2). -/
theorem C2_record_invariants_witness :
    0 ≤ (⟨0, 0, 5, 3, 2⟩ : DayRecord).inventoryEnd ∧
    0 ≤ (⟨0, 0, 5, 3, 2⟩ : DayRecord).sales ∧
    0 ≤ (⟨0, 0, 5, 3, 2⟩ : DayRecord).shortfall ∧
    (⟨0, 0, 5, 3, 2⟩ : DayRecord).sales =
      min ((⟨0, 0, 5, 3, 2⟩ : DayRecord).inventoryEnd +
        (⟨0, 0, 5, 3, 2⟩ : DayRecord).sales) (⟨0, 0, 5, 3, 2⟩ : DayRecord).demand ∧
    ((⟨0, 0, 5, 3, 2⟩ : DayRecord).inventoryEnd + (⟨0, 0, 5, 3, 2⟩ : DayRecord).sales <
        (⟨0, 0, 5, 3, 2⟩ : DayRecord).demand →
      (⟨0, 0, 5, 3, 2⟩ : DayRecord).shortfall =
        (⟨0, 0, 5, 3, 2⟩ : DayRecord).demand - (⟨0, 0, 5, 3, 2⟩ : DayRecord).sales) ∧
    ((⟨0, 0, 5, 3, 2⟩ : DayRecord).demand ≤
        (⟨0, 0, 5, 3, 2⟩ : DayRecord).inventoryEnd + (⟨0, 0, 5, 3, 2⟩ : DayRecord).sales →
      (⟨0, 0, 5, 3, 2⟩ : DayRecord).shortfall = 0) :=
  C2_record_invariants 1 3 5 50 2 (fun _ => 5) (by decide) (by decide)
    (fun _ => by show (0 : ℤ) ≤ 5; decide) ⟨0, 0, 5, 3, 2⟩ (by decide)

/-- C10: sales plus shortfall equals demand on every simulated day, for any
parameters and any demand stream: unmet demand is fully accounted as
shortfall. -/
theorem C10_conservation (dias : ℕ) (I0 s Q L : ℤ) (demanda : ℕ → ℤ) :
    ∀ r ∈ simular_inventario dias I0 s Q L demanda,
      r.sales + r.shortfall = r.demand :=
  fun r hr => simLoop_conservation s Q L demanda dias 0 I0 (-1) r hr

/-- C10 witness: on the day-0 record of a run with demand 9 from inventory 4,
sales 4 plus shortfall 5 equals demand 9. -/
theorem C10_conservation_witness :
    (⟨0, 0, 9, 4, 5⟩ : DayRecord).sales + (⟨0, 0, 9, 4, 5⟩ : DayRecord).shortfall =
      (⟨0, 0, 9, 4, 5⟩ : DayRecord).demand :=
  C10_conservation 1 4 5 50 2 (fun _ => 9) ⟨0, 0, 9, 4, 5⟩ (by decide)

/-- C3: on day `t` the pending-arrival state is set to `t + L` exactly when
the post-sales inventory is at or below `s` and either no order is pending
(the sentinel `-1`) or the pending order's arrival day is strictly before
`t`; otherwise it is left unchanged. The sentinel disjunct is equivalent to
the code's single test `llegada_pedido < t` because `-1 < t` always. -/
theorem C3_reorder_trigger (s Q L : ℤ) (t : ℕ) (d inv ll : ℤ) :
    (simStep s Q L t d inv ll).2.2 =
      if (simStep s Q L t d inv ll).2.1 ≤ s ∧ (ll = -1 ∨ ll < (t : ℤ))
      then (t : ℤ) + L else ll := by
  have ht : (0 : ℤ) ≤ (t : ℤ) := Int.natCast_nonneg t
  by_cases harr : (t : ℤ) = ll <;>
    simp only [simStep, harr] <;>
    split_ifs <;> simp_all <;> omega

/-- C4 counterexample: with `s = 5, Q = 1, L = 2` and zero demand from
`I0 = 0`, the order placed on day 0 arrives on day 2 (the state entering
day 2 is inventory 0, pending arrival 2); after that arrival and the day's
sales the inventory is 1 ≤ 5, yet the day-2 step leaves the pending state
at 2 instead of scheduling a new order arriving on day 4: no same-day
re-trigger happens. -/
theorem C4_counterexample :
    (simLoop 5 1 2 (fun _ => 0) 2 0 0 (-1)).2 = (0, 2) ∧
    (simStep 5 1 2 2 0 0 2).2.1 ≤ 5 ∧
    (simStep 5 1 2 2 0 0 2).2.2 = 2 ∧ ((2 : ℤ) + 2 ≠ 2) := by decide

/-- C4 amended: on the day an order arrives (`llegada_pedido = t`), the
engine never schedules a new order that same day: the pending state is left
unchanged regardless of the resulting inventory, because the guard
`llegada_pedido < t` fails at `t = llegada_pedido`. -/
theorem C4_no_same_day_retrigger (s Q L : ℤ) (t : ℕ) (d inv : ℤ) :
    (simStep s Q L t d inv (t : ℤ)).2.2 = (t : ℤ) := by
  simp [simStep]

/-- C5: whenever a day-`t` step changes the pending-order state (i.e. a new
order is triggered), the previously tracked arrival day was strictly in the
past (`< t`) — so a new order is only placed when no order is pending with
arrival today or later — and the new single pending arrival day is `t + L`.
The engine state holds at most one outstanding order by construction: the
whole pending state is the single scalar `llegada_pedido`. -/
theorem C5_single_pending_trigger (s Q L : ℤ) (t : ℕ) (d inv ll : ℤ)
    (h : (simStep s Q L t d inv ll).2.2 ≠ ll) :
    ll < (t : ℤ) ∧ (simStep s Q L t d inv ll).2.2 = (t : ℤ) + L := by
  by_cases harr : (t : ℤ) = ll <;>
    simp only [simStep, harr] at h ⊢ <;> split_ifs at h ⊢ <;> simp_all <;> omega

/-- C5 witness: the theorem at day 0 with inventory 10 ≤ s = 15 and no
pending order (sentinel -1): the trigger fires and the past-arrival bound
holds. -/
theorem C5_single_pending_trigger_witness :
    (-1 : ℤ) < ((0 : ℕ) : ℤ) ∧
    (simStep 15 50 2 0 0 10 (-1)).2.2 = ((0 : ℕ) : ℤ) + 2 :=
  C5_single_pending_trigger 15 50 2 0 0 10 (-1) (by decide)

/-- C1 witness: the theorem instantiated at a concrete valid input. -/
theorem C1_horizon_days_witness :
    (simular_inventario 5 10 15 50 2 (fun _ => 0)).length = 5 ∧
    (simular_inventario 5 10 15 50 2 (fun _ => 0)).map (fun r => r.day) =
      (List.range 5).map (fun i : ℕ => (i : ℤ)) ∧
    (simular_inventario 5 10 15 50 2 (fun _ => 0)).Pairwise
      (fun a b => a.day < b.day) :=
  C1_horizon_days 5 10 15 50 2 (fun _ => 0) (by decide) (by decide) (by decide)
    (by decide)

/-- C6 counterexample: with `orderQuantity = 0 ≤ 0` and `leadTime = 0 < 1`
the function performs no validation and raises nothing: it returns a full
3-day run (so a `SimulationRun` IS produced for parameters the claim says
must be rejected with `InvalidParameter` before any day executes). -/
theorem C6_counterexample :
    (0 : ℤ) ≤ 0 ∧ (0 : ℤ) < 1 ∧
    simular_inventario 3 10 5 0 0 (fun _ => 0) =
      [⟨0, 10, 0, 0, 0⟩, ⟨1, 10, 0, 0, 0⟩, ⟨2, 10, 0, 0, 0⟩] := by decide

/-- C6 amended: `simular_inventario` validates nothing. For any
`orderQuantity ≤ 0` or `leadTime < 1` it still returns a normal run of
exactly `dias` records (and `dias = 0` yields the empty run), with no
error of any kind. -/
theorem C6_no_validation (dias : ℕ) (I0 s Q L : ℤ) (demanda : ℕ → ℤ)
    (h : Q ≤ 0 ∨ L < 1) :
    (simular_inventario dias I0 s Q L demanda).length = dias := by
  simpa [simular_inventario] using simLoop_length s Q L demanda dias 0 I0 (-1)

/-- C6 witness: the amended theorem at `Q = 0`, `L = 0`. -/
theorem C6_no_validation_witness :
    (0 : ℤ) ≤ 0 ∧ (simular_inventario 3 10 5 0 0 (fun _ => 0)).length = 3 :=
  ⟨by decide, C6_no_validation 3 10 5 0 0 (fun _ => 0) (Or.inl (by decide))⟩

/-- C7 counterexample: with base mean 1 the first sweep candidate is the
UNCLAMPED `1 - 3 = -2`: its tag is `"Demanda=-2"`, not the
`"Demanda=" ++ toString (max 0 (1-3)) = "Demanda=0"` the claim requires,
and the negative candidate mean really is handed to the engine (with the
source family `fun m _ => m` the first run's demand draws are `-2`). -/
theorem C7_counterexample :
    (escenarios_data 2 10 5 50 2 1 (fun m _ => m)).map Prod.fst =
      ["Demanda=-2", "Demanda=1", "Demanda=4"] ∧
    "Demanda=-2" ≠ "Demanda=" ++ toString (max (0 : ℤ) (1 - 3)) ∧
    ((escenarios_data 2 10 5 50 2 1 (fun m _ => m)).head?.map
        (fun p => p.2.map (fun r => r.demand))) = some [-2, -2] := by decide

/-- C7 amended: the sweep runs the engine once per offset `d` in
`{-3, 0, +3}` in that order, with candidate mean exactly
`demanda_media + d` — no clamping to 0 (a base mean below 3 passes a
negative mean straight to the Poisson sampler) — leaving every other
parameter unchanged and tagging each run `"Demanda="` followed by the
unclamped candidate mean. -/
theorem C7_sweep_unclamped (dias : ℕ) (I0 s Q L : ℤ) (demanda_media : ℤ)
    (src : ℤ → ℕ → ℤ) :
    escenarios_data dias I0 s Q L demanda_media src =
      [("Demanda=" ++ toString (demanda_media - 3),
          simular_inventario dias I0 s Q L (src (demanda_media - 3))),
       ("Demanda=" ++ toString demanda_media,
          simular_inventario dias I0 s Q L (src demanda_media)),
       ("Demanda=" ++ toString (demanda_media + 3),
          simular_inventario dias I0 s Q L (src (demanda_media + 3)))] := rfl

/-- C8: the concrete scenario `dias=5, I0=10, s=15, Q=50, L=2` with zero
demand: the full trajectory has `inventoryEnd` 10, 10, 60, 60, 60 and zero
shortfall every day, and after day 0 the pending state is arrival day 2
(order triggered on day 0, arriving day 2). -/
theorem C8_zero_demand_scenario :
    simular_inventario 5 10 15 50 2 (fun _ => 0) =
      [⟨0, 10, 0, 0, 0⟩, ⟨1, 10, 0, 0, 0⟩, ⟨2, 60, 0, 0, 0⟩,
       ⟨3, 60, 0, 0, 0⟩, ⟨4, 60, 0, 0, 0⟩] ∧
    (simLoop 15 50 2 (fun _ => 0) 1 0 10 (-1)).2.2 = 2 := by decide

/-- Counting `true` in a mapped boolean column equals the length of the
filtered list. -/
theorem count_true_map_eq_length_filter (p : DayRecord → Bool)
    (df : List DayRecord) :
    (df.map p).count true = (df.filter p).length := by
  induction df with
  | nil => rfl
  | cons a l ih => by_cases h : p a <;> simp [h, ih, List.count_cons]

/-- C9: for any run, `falt_total` is the sum of the shortfall column,
`falt_dias` the number of days with positive shortfall, and `pedidos` the
number of days whose ending inventory is at or below the reorder point. -/
theorem C9_summary (df : List DayRecord) (s : ℤ) :
    falt_total df = (df.map (fun r => r.shortfall)).sum ∧
    falt_dias df = (df.filter (fun r => 0 < r.shortfall)).length ∧
    pedidos df s = (df.filter (fun r => r.inventoryEnd ≤ s)).length :=
  ⟨rfl, count_true_map_eq_length_filter _ df, count_true_map_eq_length_filter _ df⟩
